import Mathlib

set_option maxRecDepth 100000

/-
Verification development for the inboundCalls repository.

The embedding covers:
  - the media-stream session loop of src/main.py (audio ingress buffer,
    flush policy, stop handling), as a step function over an explicit
    session state;
  - the turn-segmentation handlers of src/services/stt/deepgram.py
    (on_transcript, on_end_of_turn, on_eager_end_of_turn) as pure
    functions from the transcript buffer to the new buffer plus the list
    of transport/engine actions they perform, and deepgram_close as a
    state transition;
  - run_chat of src/services/llm/openai_async.py, with the OpenAI
    chat-completions call modelled as a fallible function from the
    conversation to a response, and tool execution (including the
    json.loads of the tool arguments) as a fallible function per tool
    call.
-/

/-- BUFFER_SIZE from src/main.py line 19: 4 * 160 bytes, i.e. 80 ms of
8 kHz mulaw audio. -/
def BUFFER_SIZE : Nat := 4 * 160

/-- Inbound transport events of the media-stream loop (src/main.py lines
51-103).  A media event carries the base64-decoded payload bytes, each
byte a Nat. -/
inductive TwilioEvent where
  | connected
  | start
  | media (payload : List Nat)
  | stop
  | mark
  deriving DecidableEq, Repr

/-- State of the media-stream session loop (src/main.py lines 43-45):
the ingress byte buffer, the empty_byte_received flag, and whether the
transcriber has been constructed (transcriber is not None). -/
structure StreamState where
  buffer : List Nat
  empty_byte_received : Bool
  transcriberActive : Bool
  deriving DecidableEq, Repr

/-- Initial state of the loop: empty buffer, flag false, no transcriber
(src/main.py lines 43-45). -/
def initialStreamState : StreamState :=
  { buffer := [], empty_byte_received := false, transcriberActive := false }

/-- One iteration of the match on data.event in src/main.py lines
51-103.  Returns the new state and the list of flushes, each flush being
the exact byte list handed to transcriber.send_audio.  On media (lines
79-93): the decoded payload is appended to the buffer, the empty flag is
set when the payload is empty, and the buffer is flushed when its length
reaches BUFFER_SIZE or the flag is set, clearing buffer and flag
together.  On stop (lines 95-99) the transcriber is closed and set to
None; no flush of the buffer is performed there. -/
def handleEvent (s : StreamState) (e : TwilioEvent) :
    StreamState × List (List Nat) :=
  match e with
  | TwilioEvent.connected => (s, [])
  | TwilioEvent.start => ({ s with transcriberActive := true }, [])
  | TwilioEvent.media payload =>
      if s.transcriberActive then
        let newBuffer := s.buffer ++ payload
        let newEmpty := if payload = [] then true else s.empty_byte_received
        if BUFFER_SIZE ≤ newBuffer.length ∨ newEmpty = true then
          ({ s with buffer := [], empty_byte_received := false }, [newBuffer])
        else
          ({ s with buffer := newBuffer, empty_byte_received := newEmpty }, [])
      else
        (s, [])
  | TwilioEvent.stop => ({ s with transcriberActive := false }, [])
  | TwilioEvent.mark => (s, [])

/-- The async-for loop of src/main.py line 48: process a list of
transport events in order, collecting every flush in order. -/
def runEvents (s : StreamState) : List TwilioEvent → StreamState × List (List Nat)
  | [] => (s, [])
  | e :: es =>
      let step := handleEvent s e
      let rest := runEvents step.1 es
      (rest.1, step.2 ++ rest.2)

/-- One 160-byte Twilio media frame worth of bytes. -/
def frame160 : List Nat := List.replicate 160 255

/-- Concrete call trace: start, media frames totalling 620 bytes
(160 + 160 + 160 + 140), then stop. -/
def callTrace620 : List TwilioEvent :=
  [TwilioEvent.start, TwilioEvent.media frame160, TwilioEvent.media frame160,
   TwilioEvent.media frame160, TwilioEvent.media (List.replicate 140 255),
   TwilioEvent.stop]

/-- Actions performed by the transcript handlers of
src/services/stt/deepgram.py: sending the clear playback frame to the
websocket (line 97) and dispatching a user turn to assistant.run_chat
(lines 99, 111, 124). -/
inductive TransportAction where
  | clearPlayback
  | dispatch (text : String)
  deriving DecidableEq, Repr

/-- The test re.search of the Python pattern for sentence-terminal
punctuation at line 92 of src/services/stt/deepgram.py: it matches when
the last character is one of period, exclamation mark or question mark,
where a single trailing newline is ignored (Python end-of-string
semantics of that pattern). -/
def endsTerminal (sentence : String) : Bool :=
  let cs := if sentence.data.getLast? = some '\n' then
              sentence.data.dropLast
            else
              sentence.data
  match cs.getLast? with
  | some c => c == '.' || c == '!' || c == '?'
  | none => false

/-- The on_transcript handler of src/services/stt/deepgram.py lines
78-100, restricted to its observable effect: given the current
transcripts buffer, the transcript text of the result and its is_final
flag, return the new transcripts buffer and the actions performed.  A
non-empty final sentence is appended; when the (updated) buffer is
non-empty and the sentence ends in terminal punctuation, the handler
sends the clear frame, dispatches the space-joined buffer and clears
it. -/
def on_transcript (transcripts : List String) (sentence : String)
    (is_final : Bool) : List String × List TransportAction :=
  if is_final then
    let ts := if 0 < sentence.length then transcripts ++ [sentence] else transcripts
    if 0 < ts.length ∧ endsTerminal sentence = true then
      ([], [TransportAction.clearPlayback,
            TransportAction.dispatch (String.intercalate " " ts)])
    else
      (ts, [])
  else
    (transcripts, [])

/-- The on_end_of_turn handler of src/services/stt/deepgram.py lines
102-112: when the transcripts buffer is non-empty, dispatch the
space-joined buffer and clear it; note it sends no clear frame. -/
def on_end_of_turn (transcripts : List String) :
    List String × List TransportAction :=
  if 0 < transcripts.length then
    ([], [TransportAction.dispatch (String.intercalate " " transcripts)])
  else
    (transcripts, [])

/-- The on_eager_end_of_turn handler of src/services/stt/deepgram.py
lines 114-125: same observable behaviour as on_end_of_turn, and it also
sends no clear frame. -/
def on_eager_end_of_turn (transcripts : List String) :
    List String × List TransportAction :=
  if 0 < transcripts.length then
    ([], [TransportAction.dispatch (String.intercalate " " transcripts)])
  else
    (transcripts, [])

/-- Texts dispatched to the conversational engine among a list of
actions, in order. -/
def dispatchedTexts : List TransportAction → List String
  | [] => []
  | TransportAction.clearPlayback :: rest => dispatchedTexts rest
  | TransportAction.dispatch t :: rest => t :: dispatchedTexts rest

/-- State of a DeepgramTranscriber relevant to closing
(src/services/stt/deepgram.py lines 29-34): whether dg_connection is
set, and the started and closed flags. -/
structure TranscriberState where
  dg_connection : Bool
  started : Bool
  closed : Bool
  deriving DecidableEq, Repr

/-- The deepgram_close method, lines 193-212 of
src/services/stt/deepgram.py: when the connection is set, started and
not yet closed, it finishes the connection (the returned Bool records
that this release happened), sets closed, clears started and drops the
connection; otherwise it is a no-op that only logs.  Any error raised
while finishing is swallowed by the surrounding try/except, so the
method never raises; the model is accordingly a total function. -/
def deepgram_close (s : TranscriberState) : TranscriberState × Bool :=
  if s.dg_connection && s.started && !s.closed then
    ({ dg_connection := false, started := false, closed := true }, true)
  else
    (s, false)

/-- A tool call in an OpenAI response (src/services/llm/openai_async.py
lines 131-133): id, function name and raw JSON arguments string. -/
structure ToolCall where
  id : String
  name : String
  arguments : String
  deriving DecidableEq, Repr

/-- An OpenAI chat-completions response message: optional content and
the list of requested tool calls (empty models a falsy tool_calls). -/
structure ChatResponse where
  content : Option String
  tool_calls : List ToolCall
  deriving DecidableEq, Repr

/-- A message of self.conversation in src/services/llm/openai_async.py:
system and user messages, an engine response message appended verbatim
in the tool branch (line 128), a tool-result message (lines 157-162)
and a plain assistant message (line 174). -/
inductive ChatMsg where
  | system (content : String)
  | user (content : String)
  | engine (response : ChatResponse)
  | tool (tool_call_id : String) (name : String) (content : String)
  | assistant (content : Option String)
  deriving DecidableEq, Repr

/-- The for-loop over response_message.tool_calls in
src/services/llm/openai_async.py lines 131-162: execute each tool call
in order and append one tool message per call.  execTool models the
json.loads of the arguments plus the dispatch to the calendar service
(or the unknown-function fallback dict); an Except.error models an
exception raised there, which propagates out of the loop. -/
def runTools (execTool : ToolCall → Except String String) :
    List ToolCall → Except String (List ChatMsg)
  | [] => Except.ok []
  | tc :: rest =>
      match execTool tc with
      | Except.error e => Except.error e
      | Except.ok content =>
          match runTools execTool rest with
          | Except.error e => Except.error e
          | Except.ok msgs => Except.ok (ChatMsg.tool tc.id tc.name content :: msgs)

/-- Result of a successful run_chat call: the final conversation, the
text handed to the TTS provider, the number of chat-completions calls
made on that path, and the tool calls that were executed. -/
structure RunResult where
  conversation : List ChatMsg
  spoken : Option String
  engineCalls : Nat
  executed : List ToolCall
  deriving DecidableEq, Repr

/-- The run_chat method of src/services/llm/openai_async.py lines
112-179.  engine models client.chat.completions.create as a fallible
function of the message list; run_chat itself has no try/except, so an
engine or tool failure propagates as Except.error.  The user message is
appended; if the response carries tool calls, the response message is
appended, each tool call is executed and its result appended, and the
engine is invoked a second time, whose content is spoken but, exactly as
in the source (lines 164-176), never appended to the conversation;
otherwise the content is appended as an assistant message and spoken. -/
def run_chat (engine : List ChatMsg → Except String ChatResponse)
    (execTool : ToolCall → Except String String)
    (conversation : List ChatMsg) (message : String) :
    Except String RunResult :=
  let conv1 := conversation ++ [ChatMsg.user message]
  match engine conv1 with
  | Except.error e => Except.error e
  | Except.ok response_message =>
      if response_message.tool_calls = [] then
        Except.ok
          { conversation := conv1 ++ [ChatMsg.assistant response_message.content],
            spoken := response_message.content,
            engineCalls := 1,
            executed := [] }
      else
        let conv2 := conv1 ++ [ChatMsg.engine response_message]
        match runTools execTool response_message.tool_calls with
        | Except.error e => Except.error e
        | Except.ok toolMsgs =>
            let conv3 := conv2 ++ toolMsgs
            match engine conv3 with
            | Except.error e => Except.error e
            | Except.ok finalResponse =>
                Except.ok
                  { conversation := conv3,
                    spoken := finalResponse.content,
                    engineCalls := 2,
                    executed := response_message.tool_calls }

/-- An engine whose chat-completions call always raises. -/
def failingEngine : List ChatMsg → Except String ChatResponse :=
  fun _ => Except.error "engine unavailable"

/-- An engine that always answers with plain text and no tool calls. -/
def constEngine : List ChatMsg → Except String ChatResponse :=
  fun _ => Except.ok { content := some "hi", tool_calls := [] }

/-- The single tool call used in the concrete tool-branch scenario. -/
def toolRequest : ToolCall :=
  { id := "call_1", name := "check_availability", arguments := "2026-10-13" }

/-- An engine that first requests the check_availability tool call and,
once the tool result message is in the conversation, answers with plain
text. -/
def toolEngine : List ChatMsg → Except String ChatResponse :=
  fun conv =>
    if ChatMsg.tool "call_1" "check_availability" "slots: 9:00, 9:30" ∈ conv then
      Except.ok { content := some "We have 9:00 and 9:30 available.", tool_calls := [] }
    else
      Except.ok { content := none, tool_calls := [toolRequest] }

/-- A tool executor that always succeeds with a fixed slots string. -/
def demoExecTool : ToolCall → Except String String :=
  fun _ => Except.ok "slots: 9:00, 9:30"

theorem streamInvariant_step (s : StreamState) (e : TwilioEvent)
    (hb : s.buffer.length < BUFFER_SIZE) (he : s.empty_byte_received = false) :
    (handleEvent s e).1.buffer.length < BUFFER_SIZE ∧
    (handleEvent s e).1.empty_byte_received = false := by
  cases e with
  | connected => exact ⟨hb, he⟩
  | start => exact ⟨hb, he⟩
  | stop => exact ⟨hb, he⟩
  | mark => exact ⟨hb, he⟩
  | media payload =>
      by_cases ha : s.transcriberActive
      · simp only [handleEvent, ha, if_true]
        split
        · split
          · exact ⟨by norm_num [BUFFER_SIZE], rfl⟩
          · next hc => exact absurd (Or.inr rfl) hc
        · split
          · exact ⟨by norm_num [BUFFER_SIZE], rfl⟩
          · next hc =>
              push_neg at hc
              exact ⟨hc.1, Bool.eq_false_iff.mpr hc.2⟩
      · simp only [handleEvent, ha, if_false]
        exact ⟨hb, he⟩

theorem runEvents_invariant (s : StreamState) (es : List TwilioEvent)
    (hb : s.buffer.length < BUFFER_SIZE) (he : s.empty_byte_received = false) :
    (runEvents s es).1.buffer.length < BUFFER_SIZE ∧
    (runEvents s es).1.empty_byte_received = false := by
  induction es generalizing s with
  | nil => exact ⟨hb, he⟩
  | cons e es ih =>
      have hstep := streamInvariant_step s e hb he
      simpa [runEvents] using ih (handleEvent s e).1 hstep.1 hstep.2

/-- Claim C10: after the session loop processes any sequence of inbound
events from the initial state, the audio ingress buffer holds strictly
fewer bytes than the 640-byte threshold and the empty-frame flag is
false (in particular after any flush), for frames of any sizes, by
induction over events. -/
theorem C10_buffer_invariant (es : List TwilioEvent) :
    (runEvents initialStreamState es).1.buffer.length < BUFFER_SIZE ∧
    (runEvents initialStreamState es).1.empty_byte_received = false :=
  runEvents_invariant initialStreamState es (by norm_num [initialStreamState, BUFFER_SIZE]) rfl

/-- Claim C1, counterexample: on the concrete trace with media frames
totalling 620 bytes followed by stop, the loop performs zero flushes in
total; in particular no flush at all happens when stop is handled, and
the 620 bytes are left behind in the buffer, contradicting the claimed
final explicit flush of exactly those 620 bytes. -/
theorem C1_stop_flush_counterexample :
    (runEvents initialStreamState callTrace620).2 = [] ∧
    (runEvents initialStreamState callTrace620).1.buffer.length = 620 :=
  ⟨rfl, rfl⟩

/-- Claim C1, amended: handling stop performs no flush and leaves the
buffer untouched (the stop arm only closes the transcriber), so on the
620-byte trace zero flushes occur before stop and zero flushes occur at
stop; the 620 buffered bytes are never forwarded to the recognizer. -/
theorem C1_stop_never_flushes (s : StreamState) :
    (handleEvent s TwilioEvent.stop).2 = [] ∧
    (handleEvent s TwilioEvent.stop).1.buffer = s.buffer ∧
    (runEvents initialStreamState callTrace620).2 = [] ∧
    (runEvents initialStreamState callTrace620).1.buffer.length = 620 :=
  ⟨rfl, rfl, rfl, rfl⟩

/-- Claim C9: during an active session, a media event flushes exactly
when, after appending the decoded payload, the accumulated size reaches
BUFFER_SIZE or the empty-frame flag (updated by this frame) is set; a
flush forwards exactly the accumulated bytes and clears buffer and flag
in the same step, and a non-flushing event keeps exactly the
accumulated bytes and updated flag, so no byte is duplicated or lost
across a flush boundary. -/
theorem C9_media_flush_exact (buf : List Nat) (fl : Bool) (payload : List Nat) :
    ((handleEvent ⟨buf, fl, true⟩ (TwilioEvent.media payload)).2 ≠ [] ↔
      BUFFER_SIZE ≤ (buf ++ payload).length ∨
        (if payload = [] then true else fl) = true) ∧
    ((handleEvent ⟨buf, fl, true⟩ (TwilioEvent.media payload)).2 ≠ [] →
      (handleEvent ⟨buf, fl, true⟩ (TwilioEvent.media payload)).2 = [buf ++ payload] ∧
      (handleEvent ⟨buf, fl, true⟩ (TwilioEvent.media payload)).1.buffer = [] ∧
      (handleEvent ⟨buf, fl, true⟩ (TwilioEvent.media payload)).1.empty_byte_received = false) ∧
    ((handleEvent ⟨buf, fl, true⟩ (TwilioEvent.media payload)).2 = [] →
      (handleEvent ⟨buf, fl, true⟩ (TwilioEvent.media payload)).1.buffer = buf ++ payload ∧
      (handleEvent ⟨buf, fl, true⟩ (TwilioEvent.media payload)).1.empty_byte_received =
        (if payload = [] then true else fl)) := by
  have he : handleEvent ⟨buf, fl, true⟩ (TwilioEvent.media payload) =
      if BUFFER_SIZE ≤ (buf ++ payload).length ∨
          (if payload = [] then true else fl) = true then
        (⟨[], false, true⟩, [buf ++ payload])
      else
        (⟨buf ++ payload, if payload = [] then true else fl, true⟩, []) := rfl
  rw [he]
  by_cases hc : BUFFER_SIZE ≤ (buf ++ payload).length ∨
      (if payload = [] then true else fl) = true
  · rw [if_pos hc]
    exact ⟨⟨fun _ => hc, fun _ => List.cons_ne_nil _ _⟩,
           fun _ => ⟨rfl, rfl, rfl⟩,
           fun h => absurd h (List.cons_ne_nil _ _)⟩
  · rw [if_neg hc]
    exact ⟨⟨fun h => absurd rfl h, fun h => absurd h hc⟩,
           fun h => absurd rfl h,
           fun _ => ⟨rfl, rfl⟩⟩

/-- Claim C9, witness: a 640-byte payload arriving on an empty buffer
flushes exactly those 640 bytes and resets the state. -/
theorem C9_media_flush_exact_witness :
    (handleEvent ⟨[], false, true⟩ (TwilioEvent.media (List.replicate 640 7))).2 =
      [([] : List Nat) ++ List.replicate 640 7] ∧
    (handleEvent ⟨[], false, true⟩ (TwilioEvent.media (List.replicate 640 7))).1.buffer = [] ∧
    (handleEvent ⟨[], false, true⟩
        (TwilioEvent.media (List.replicate 640 7))).1.empty_byte_received = false :=
  (C9_media_flush_exact [] false (List.replicate 640 7)).2.1 (by decide)

/-- Claim C2: for the final segments "I need" then "a property.", the
first segment dispatches nothing and leaves the buffer holding it; the
second dispatches exactly one turn with text "I need a property." and
leaves the buffer empty. -/
theorem C2_punctuated_turn_dispatch :
    dispatchedTexts (on_transcript [] "I need" true).2 = [] ∧
    (on_transcript [] "I need" true).1 = ["I need"] ∧
    dispatchedTexts (on_transcript (on_transcript [] "I need" true).1 "a property." true).2 =
      ["I need a property."] ∧
    (on_transcript (on_transcript [] "I need" true).1 "a property." true).1 = [] := by
  decide

/-- Claim C3: when an end-of-turn signal arrives with a non-empty
transcript buffer, exactly one turn carrying the buffered segments
joined with single spaces is dispatched and the buffer is cleared; with
an empty buffer nothing is dispatched and nothing changes.  The
buffered single segment "yes I think so" is the instance named by the
claim, covered by the general statement. -/
theorem C3_end_of_turn_dispatch (t : String) (rest : List String) :
    dispatchedTexts (on_end_of_turn (t :: rest)).2 =
      [String.intercalate " " (t :: rest)] ∧
    (on_end_of_turn (t :: rest)).1 = [] ∧
    on_end_of_turn [] = ([], []) := by
  refine ⟨?_, ?_, rfl⟩ <;> simp [on_end_of_turn, dispatchedTexts]

/-- Claim C4, counterexample: an end-of-turn completion with buffered
text "yes I think so" dispatches the non-empty turn text but emits no
clear playback instruction at all, so no clear precedes the dispatch. -/
theorem C4_end_of_turn_clear_counterexample :
    dispatchedTexts (on_end_of_turn ["yes I think so"]).2 = ["yes I think so"] ∧
    TransportAction.clearPlayback ∉ (on_end_of_turn ["yes I think so"]).2 := by
  decide

/-- Claim C4, amended: only punctuation-fired completions in
on_transcript emit the clear playback instruction before the dispatch
(their action list is either empty or exactly clear followed by the
dispatch); completions fired by the end-of-turn or eager-end-of-turn
signals dispatch without ever emitting a clear instruction. -/
theorem C4_clear_only_on_punctuated_completion (ts : List String) (sentence : String) :
    ((on_transcript ts sentence true).2 = [] ∨
      ∃ txt, (on_transcript ts sentence true).2 =
        [TransportAction.clearPlayback, TransportAction.dispatch txt]) ∧
    TransportAction.clearPlayback ∉ (on_end_of_turn ts).2 ∧
    TransportAction.clearPlayback ∉ (on_eager_end_of_turn ts).2 := by
  refine ⟨?_, ?_, ?_⟩
  · unfold on_transcript
    repeat' split
    all_goals dsimp only
    all_goals repeat' split
    all_goals first
      | exact Or.inl rfl
      | exact Or.inr ⟨_, rfl⟩
  · unfold on_end_of_turn
    split <;> simp
  · unfold on_eager_end_of_turn
    split <;> simp

/-- Claim C8: closing the transcriber is idempotent: from any state, a
second deepgram_close after a first one releases nothing and leaves the
state exactly as the first left it; and whenever the first close did
release the connection, it left the closed flag set and the connection
cleared.  The method never raises: errors while finishing are swallowed
by its try/except, so the model is a total function. -/
theorem C8_close_idempotent (s : TranscriberState) :
    deepgram_close (deepgram_close s).1 = ((deepgram_close s).1, false) ∧
    ((deepgram_close s).2 = true →
      (deepgram_close s).1.closed = true ∧
      (deepgram_close s).1.dg_connection = false) := by
  obtain ⟨c, st, cl⟩ := s
  cases c <;> cases st <;> cases cl <;> exact ⟨rfl, fun h => by cases h <;> exact ⟨rfl, rfl⟩⟩

/-- Claim C8, witness: from the open, started, not-yet-closed state the
first close releases the connection and sets the closed flag. -/
theorem C8_close_idempotent_witness :
    (deepgram_close ⟨true, true, false⟩).1.closed = true ∧
    (deepgram_close ⟨true, true, false⟩).1.dg_connection = false :=
  (C8_close_idempotent ⟨true, true, false⟩).2 rfl

/-- Claim C5, counterexample: with an engine whose chat-completions call
raises, run_chat propagates the failure to its caller instead of
returning a fallback utterance: the result is the error itself, so an
exception does escape run_chat and no polite fallback is produced. -/
theorem C5_fallback_counterexample :
    run_chat failingEngine (fun _ => Except.error "tool failure") [] "hello" =
      Except.error "engine unavailable" := rfl

/-- Claim C5, amended: run_chat contains no error handling: a failing
engine call propagates its error unchanged, and a failing tool execution
in the tool branch likewise propagates its error unchanged; no fallback
utterance is synthesized on either path.  What survives of the claim is
only the absence of a retry or tool loop (covered by the bounded
round-trip theorem for the success path). -/
theorem C5_failure_propagates
    (engine : List ChatMsg → Except String ChatResponse)
    (execTool : ToolCall → Except String String)
    (conversation : List ChatMsg) (message : String) (e : String) :
    (engine (conversation ++ [ChatMsg.user message]) = Except.error e →
      run_chat engine execTool conversation message = Except.error e) ∧
    (∀ response_message,
      engine (conversation ++ [ChatMsg.user message]) = Except.ok response_message →
      response_message.tool_calls ≠ [] →
      runTools execTool response_message.tool_calls = Except.error e →
      run_chat engine execTool conversation message = Except.error e) := by
  constructor
  · intro h
    unfold run_chat
    try dsimp only
    rw [h]
  · intro response_message h1 h2 h3
    unfold run_chat
    try dsimp only
    rw [h1]
    try dsimp only
    rw [if_neg h2]
    try dsimp only
    rw [h3]

/-- Claim C5, witness: a concrete failing engine makes run_chat return
exactly that error. -/
theorem C5_failure_propagates_witness :
    run_chat failingEngine (fun _ => Except.error "tool failure") [] "hi" =
      Except.error "engine unavailable" :=
  (C5_failure_propagates failingEngine (fun _ => Except.error "tool failure") [] "hi"
      "engine unavailable").1 rfl

/-- Claim C6, code-bug evaluation: on a turn where the engine requests
one tool call, run_chat ends with the conversation
[user, engine tool-call request, tool result]: the final assistant
answer is spoken but never appended to the conversation, so the history
does not end with the assistant text (the no-tool branch does append
it, line 174 of src/services/llm/openai_async.py; the tool branch,
lines 164-176, omits the append). -/
theorem C6_tool_branch_drops_final_text :
    run_chat toolEngine demoExecTool [] "I want to book a visit" =
      Except.ok
        { conversation :=
            [ChatMsg.user "I want to book a visit",
             ChatMsg.engine { content := none, tool_calls := [toolRequest] },
             ChatMsg.tool "call_1" "check_availability" "slots: 9:00, 9:30"],
          spoken := some "We have 9:00 and 9:30 available.",
          engineCalls := 2,
          executed := [toolRequest] } ∧
    ([ChatMsg.user "I want to book a visit",
      ChatMsg.engine { content := none, tool_calls := [toolRequest] },
      ChatMsg.tool "call_1" "check_availability" "slots: 9:00, 9:30"] : List ChatMsg).getLast? =
      some (ChatMsg.tool "call_1" "check_availability" "slots: 9:00, 9:30") ∧
    ChatMsg.assistant (some "We have 9:00 and 9:30 available.") ∉
      ([ChatMsg.user "I want to book a visit",
        ChatMsg.engine { content := none, tool_calls := [toolRequest] },
        ChatMsg.tool "call_1" "check_availability" "slots: 9:00, 9:30"] : List ChatMsg) := by
  refine ⟨rfl, rfl, ?_⟩
  decide

/-- Claim C7: for every successful run_chat call, at most two engine
invocations happen, and every executed tool call comes from the first
engine response: the second invocation only supplies the final answer
and can never trigger further tool execution, so no unbounded recursive
tool calling is possible. -/
theorem C7_bounded_tool_round_trips
    (engine : List ChatMsg → Except String ChatResponse)
    (execTool : ToolCall → Except String String)
    (conversation : List ChatMsg) (message : String) (r : RunResult)
    (h : run_chat engine execTool conversation message = Except.ok r) :
    r.engineCalls ≤ 2 ∧
    ∃ response_message,
      engine (conversation ++ [ChatMsg.user message]) = Except.ok response_message ∧
      r.executed = response_message.tool_calls := by
  unfold run_chat at h
  dsimp only at h
  split at h
  · exact absurd h (by simp)
  · next response_message hE =>
      split at h
      · next ht =>
          rw [Except.ok.injEq] at h
          subst h
          exact ⟨Nat.le_succ 1, response_message, hE, ht.symm⟩
      · next ht =>
          split at h
          · exact absurd h (by simp)
          · next toolMsgs hT =>
              split at h
              · exact absurd h (by simp)
              · next finalResponse hF =>
                  rw [Except.ok.injEq] at h
                  subst h
                  exact ⟨Nat.le_refl 2, response_message, hE, rfl⟩

/-- Claim C7, witness: with an engine that answers directly, one engine
call happens, and the executed tool calls are those of its (empty)
tool-call list. -/
theorem C7_bounded_tool_round_trips_witness :
    ({ conversation := [ChatMsg.user "hello", ChatMsg.assistant (some "hi")],
       spoken := some "hi", engineCalls := 1, executed := [] } : RunResult).engineCalls ≤ 2 ∧
    ∃ response_message,
      constEngine ([] ++ [ChatMsg.user "hello"]) = Except.ok response_message ∧
      ({ conversation := [ChatMsg.user "hello", ChatMsg.assistant (some "hi")],
         spoken := some "hi", engineCalls := 1, executed := [] } : RunResult).executed =
        response_message.tool_calls :=
  C7_bounded_tool_round_trips constEngine (fun _ => Except.ok "ok") [] "hello"
    { conversation := [ChatMsg.user "hello", ChatMsg.assistant (some "hi")],
      spoken := some "hi", engineCalls := 1, executed := [] } (by rfl)

/-- Claim C1, amended, witness: instantiation of the no-flush-on-stop
statement at a concrete non-empty buffer state. -/
theorem C1_stop_never_flushes_witness :
    (handleEvent ⟨[1, 2, 3], true, true⟩ TwilioEvent.stop).2 = [] ∧
    (handleEvent ⟨[1, 2, 3], true, true⟩ TwilioEvent.stop).1.buffer = [1, 2, 3] ∧
    (runEvents initialStreamState callTrace620).2 = [] ∧
    (runEvents initialStreamState callTrace620).1.buffer.length = 620 :=
  C1_stop_never_flushes ⟨[1, 2, 3], true, true⟩

/-- Claim C3, witness: the end-of-turn dispatch statement at the
buffered segment named by the claim. -/
theorem C3_end_of_turn_dispatch_witness :
    dispatchedTexts (on_end_of_turn ["yes I think so"]).2 =
      [String.intercalate " " ["yes I think so"]] ∧
    (on_end_of_turn ["yes I think so"]).1 = [] ∧
    on_end_of_turn [] = ([], []) :=
  C3_end_of_turn_dispatch "yes I think so" []

/-- Claim C4, amended, witness: instantiation at the punctuated segment
scenario. -/
theorem C4_clear_only_on_punctuated_completion_witness :
    ((on_transcript ["I need"] "a property." true).2 = [] ∨
      ∃ txt, (on_transcript ["I need"] "a property." true).2 =
        [TransportAction.clearPlayback, TransportAction.dispatch txt]) ∧
    TransportAction.clearPlayback ∉ (on_end_of_turn ["I need"]).2 ∧
    TransportAction.clearPlayback ∉ (on_eager_end_of_turn ["I need"]).2 :=
  C4_clear_only_on_punctuated_completion ["I need"] "a property."

/-- Claim C10, witness: the invariant instantiated on the concrete
620-byte call trace. -/
theorem C10_buffer_invariant_witness :
    (runEvents initialStreamState callTrace620).1.buffer.length < BUFFER_SIZE ∧
    (runEvents initialStreamState callTrace620).1.empty_byte_received = false :=
  C10_buffer_invariant callTrace620
